import Mathlib

/-!
Shallow embedding of `src/qr_generator.py` (class `QRCodeGenerator`), the QR
code generation pipeline: its exception taxonomy, input validation, filename
synthesis, color resolution, output-directory probing, image synthesis
dispatch, and the `generate_qr_code` orchestrator.  External collaborators
(the `qrcode` symbol encoder, PIL image rendering and saving, the OS
filesystem) are modelled as injected outcome parameters; everything the
Python file itself computes is translated directly.
-/

namespace QRGen

/-- Structured message payloads of the exceptions raised by the module.
Python formats these as strings; the embedding keeps the information the
format strings carry (in particular the list of valid options where the
message enumerates one). Messages of exceptions raised by external
collaborators are carried by `external`. -/
inductive Msg where
  | inputDataMustBeString
  | inputDataCannotBeEmpty
  | invalidErrorCorrection (given : String) (valid : List String)
  | invalidDrawerStyle (given : String) (valid : List String)
  | invalidColorMask (given : String) (valid : List String)
  | dataTooLargeForQRCode
  | insufficientPermissionsForDir (dir : String)
  | filesystemErrorDir
  | unexpectedErrorDir
  | cannotSavePermissionDenied (path : String)
  | filesystemErrorSavingImage
  | failedToSaveImage
  | imageCreationFailed
  | qrGenerationFailed
  | notSubscriptable
  | external (s : String)
  deriving DecidableEq

/-- Kinds of builtin `OSError`: the builtin `PermissionError` subclass versus
any other OS-level error. -/
inductive OSKind where
  | permission
  | otherOS
  deriving DecidableEq

/-- Python exception values relevant to the module.  `osError .permission`
is the BUILTIN `PermissionError` (an `OSError` subclass raised by the OS);
`permissionError` is the module's own `class PermissionError(FileSystemError)`,
which shadows the builtin name at module scope.  `cause` models
`raise ... from e`. -/
inductive PyExc where
  | osError (k : OSKind) (m : Msg)
  | typeError (m : Msg)
  | dataOverflowError (m : Msg)
  | keyboardInterrupt
  | inputValidationError (m : Msg) (cause : Option PyExc)
  | fileSystemError (m : Msg) (cause : Option PyExc)
  | permissionError (m : Msg) (cause : Option PyExc)
  | qrGenerationError (m : Msg) (cause : Option PyExc)
  | otherError (m : Msg)

namespace PyExc

/-- `isinstance(e, PermissionError)` where the name `PermissionError`
resolves to the module's custom class (the builtin is shadowed): only the
custom class and its instances match — a builtin OS permission error does
not. -/
def isCustomPermission : PyExc → Bool
  | .permissionError _ _ => true
  | _ => false

/-- `isinstance(e, OSError)`: builtin `OSError` and its subclasses,
including the builtin `PermissionError`.  The module's custom classes
derive from `Exception`, not `OSError`. -/
def isOSError : PyExc → Bool
  | .osError _ _ => true
  | _ => false

/-- `isinstance(e, Exception)`: everything except `KeyboardInterrupt`
(which derives from `BaseException` only). -/
def isException : PyExc → Bool
  | .keyboardInterrupt => false
  | _ => true

/-- `isinstance(e, InputValidationError)`. -/
def isInputValidationError : PyExc → Bool
  | .inputValidationError _ _ => true
  | _ => false

/-- `isinstance(e, qrcode.exceptions.DataOverflowError)`. -/
def isDataOverflow : PyExc → Bool
  | .dataOverflowError _ => true
  | _ => false

/-- `isinstance(e, KeyboardInterrupt)`. -/
def isKeyboardInterrupt : PyExc → Bool
  | .keyboardInterrupt => true
  | _ => false

end PyExc

/-- `str.lower()` restricted to the ASCII range the module's tables use. -/
def pyLower (s : String) : String := String.mk (s.toList.map Char.toLower)

/-- `str.upper()` restricted to the ASCII range the module's tables use. -/
def pyUpper (s : String) : String := String.mk (s.toList.map Char.toUpper)

/-- `str.strip()`: drop leading and trailing whitespace. -/
def pyStrip (s : String) : String :=
  String.mk (((s.toList.dropWhile Char.isWhitespace).reverse.dropWhile Char.isWhitespace).reverse)

/-- `str.isalnum()` on the ASCII range (the module's sanitizer applies it
character by character). -/
def pyIsAlnum (c : Char) : Bool := c.isAlphanum

/-- `_parse_color`: the if/elif chain of lines 324-341, lowercasing first
and defaulting to black. Total — it raises nothing. -/
def parse_color (color_str : String) : Nat × Nat × Nat :=
  let color_lower := pyLower color_str
  if color_lower = "black" then (0, 0, 0)
  else if color_lower = "white" then (255, 255, 255)
  else if color_lower = "red" then (255, 0, 0)
  else if color_lower = "green" then (0, 255, 0)
  else if color_lower = "blue" then (0, 0, 255)
  else (0, 0, 0)

/-- The spec's color table of §4.3, written from the spec's words, to be
compared with `parse_color` (refinement comparison). -/
def specColorTable : List (String × (Nat × Nat × Nat)) :=
  [("black", (0, 0, 0)), ("white", (255, 255, 255)), ("red", (255, 0, 0)),
   ("green", (0, 255, 0)), ("blue", (0, 0, 255))]

/-- The character replacement of `_generate_filename` line 165:
`c if c.isalnum() or c in ('-', '_') else '_'`. -/
def sanitizeChar (c : Char) : Char :=
  if pyIsAlnum c || c == '-' || c == '_' then c else '_'

/-- The sanitizing join of `_generate_filename` line 165. -/
def sanitize (data : List Char) : List Char := data.map sanitizeChar

/-- `_generate_filename` (lines 153-168) on character lists: sanitize,
truncate to 50, wrap as `qr_<...>.<extension>`. -/
def generate_filename_chars (data : List Char) (extension : List Char) : List Char :=
  "qr_".toList ++ (sanitize data).take 50 ++ '.' :: extension

/-- `_generate_filename` as a `String` function, the form the pipeline
calls with the default extension `"png"`. -/
def generate_filename (data : String) (extension : String) : String :=
  String.mk (generate_filename_chars data.toList extension.toList)

/-- Python values that may be passed as `data` (the parameter is annotated
`str` but nothing enforces it).  `str` and `list` support slicing; `int`
and `none` do not. -/
inductive PyVal where
  | str (s : String)
  | int (n : Int)
  | none
  | list (xs : List Int)
  deriving DecidableEq

/-- The expression `data[:50]` on line 210, evaluated by the logging call
BEFORE the `try` block: slicing a non-subscriptable value raises a builtin
`TypeError`. -/
def slice50 : PyVal → Except PyExc Unit
  | .str _ => .ok ()
  | .list _ => .ok ()
  | .int _ => .error (.typeError .notSubscriptable)
  | .none => .error (.typeError .notSubscriptable)

/-- The `str` content of a `PyVal` known to be a string. -/
def PyVal.asString : PyVal → String
  | .str s => s
  | _ => ""

/-- `_validate_input_data` (lines 141-151): type check, then emptiness
after `strip()`. -/
def validate_input_data : PyVal → Except PyExc Unit
  | .str s =>
      if pyStrip s = "" then .error (.inputValidationError .inputDataCannotBeEmpty Option.none)
      else .ok ()
  | _ => .error (.inputValidationError .inputDataMustBeString Option.none)

/-- `ERROR_CORRECTION_MAP` (lines 56-61) with the numeric values of
`qrcode.constants`. -/
def ERROR_CORRECTION_MAP : List (String × Nat) :=
  [("L", 1), ("M", 0), ("Q", 3), ("H", 2)]

/-- The module-drawer classes, as tags. -/
inductive Drawer where
  | squareD | rounded | gapped | circle | vertical | horizontal
  deriving DecidableEq

/-- `MODULE_DRAWERS` (lines 63-70). -/
def MODULE_DRAWERS : List (String × Drawer) :=
  [("square", .squareD), ("rounded", .rounded), ("gapped", .gapped),
   ("circle", .circle), ("vertical", .vertical), ("horizontal", .horizontal)]

/-- The color-mask classes, as tags. -/
inductive Mask where
  | radial | squareM | horizontal | vertical | solid
  deriving DecidableEq

/-- `COLOR_MASKS` (lines 72-78). -/
def COLOR_MASKS : List (String × Mask) :=
  [("radial", .radial), ("square", .squareM), ("horizontal", .horizontal),
   ("vertical", .vertical), ("solid", .solid)]

/-- Observable side effects of one `generate_qr_code` call on external
collaborators: invoking the symbol encoder (`qr.make`) and writing a file
(`img.save` succeeding at a path). -/
inductive Effect where
  | encoderInvoked
  | fileWrite (path : String)
  deriving DecidableEq

/-- Outcomes of the external collaborators during one `generate_qr_code`
call: `qr.make(fit=True)` (the symbol encoder), `qr.make_image` (the
renderer) and `img.save` (the persistence sink).  `.ok ()` means the
library call returns normally; `.error e` means it raises `e`. -/
structure Ext where
  encode : Except PyExc Unit
  makeImage : Except PyExc Unit
  save : Except PyExc Unit

/-- All external collaborators succeed. -/
def extOK : Ext := ⟨.ok (), .ok (), .ok ()⟩

/-- `_create_qr_image` (lines 268-322).  The styled branch looks up the
drawer (lowercased), then builds the color mask — `solid` is special-cased
with the two parsed colors, any other name is looked up (lowercased) in
`COLOR_MASKS` — then calls `qr.make_image`.  The plain branch calls
`qr.make_image` with the parsed colors.  The whole body sits in a
`try/except Exception` that wraps ANY exception — including the
`InputValidationError`s raised by the lookups — into `QRGenerationError`
(`KeyboardInterrupt` is not an `Exception` and passes through). -/
def create_qr_image (ext : Ext) (styled : Bool)
    (drawer_style color_mask foreground_color background_color : String) :
    Except PyExc Unit :=
  let body : Except PyExc Unit :=
    if styled then
      match MODULE_DRAWERS.lookup (pyLower drawer_style) with
      | Option.none =>
          .error (.inputValidationError
            (.invalidDrawerStyle drawer_style (MODULE_DRAWERS.map Prod.fst)) Option.none)
      | Option.some _drawer_class =>
          if pyLower color_mask = "solid" then
            let _mask := (parse_color background_color, parse_color foreground_color)
            ext.makeImage
          else
            match COLOR_MASKS.lookup (pyLower color_mask) with
            | Option.none =>
                .error (.inputValidationError
                  (.invalidColorMask color_mask (COLOR_MASKS.map Prod.fst)) Option.none)
            | Option.some _mask_class => ext.makeImage
    else
      let _colors := (parse_color foreground_color, parse_color background_color)
      ext.makeImage
  match body with
  | .ok u => .ok u
  | .error e =>
      if e.isException then .error (.qrGenerationError .imageCreationFailed (Option.some e))
      else .error e

/-- `_save_image` (lines 343-357).  Returns the result together with the
file-write effects (a write effect is recorded when the save succeeds).
`except PermissionError` refers to the module's custom class — a builtin
OS permission error instead matches `except OSError`. -/
def save_image (ext : Ext) (path : String) : Except PyExc Unit × List Effect :=
  match ext.save with
  | .ok _ => (.ok (), [.fileWrite path])
  | .error e =>
      (if e.isCustomPermission then
        .error (.permissionError (.cannotSavePermissionDenied path) (Option.some e))
      else if e.isOSError then
        .error (.fileSystemError .filesystemErrorSavingImage (Option.some e))
      else if e.isException then
        .error (.qrGenerationError .failedToSaveImage (Option.some e))
      else .error e, [])

/-- `os.path.join(self.output_dir, output_filename)` for the relative
names the module produces. -/
def pyJoin (dir : String) (name : String) : String := dir ++ "/" ++ name

/-- The keyword arguments of `generate_qr_code` (lines 170-184) with their
default values. -/
structure GenRequest where
  data : PyVal
  filename : Option String := Option.none
  version : Option Nat := Option.none
  error_correction : String := "L"
  box_size : Nat := 10
  border : Nat := 4
  styled : Bool := false
  drawer_style : String := "rounded"
  color_mask : String := "radial"
  foreground_color : String := "black"
  background_color : String := "white"

/-- The `except` ladder of `generate_qr_code` (lines 255-266):
`InputValidationError` re-raised as-is, `DataOverflowError` re-raised as
`InputValidationError("Data too large for QR code") from e`,
`KeyboardInterrupt` re-raised as-is, any other `Exception` wrapped as
`QRGenerationError from e`. -/
def generateHandler (e : PyExc) : PyExc :=
  if e.isInputValidationError then e
  else if e.isDataOverflow then .inputValidationError .dataTooLargeForQRCode (Option.some e)
  else if e.isKeyboardInterrupt then e
  else if e.isException then .qrGenerationError .qrGenerationFailed (Option.some e)
  else e

/-- `generate_qr_code` (lines 170-266): the logging slice of line 210
(outside the `try`), then validation, error-correction resolution,
encoding, image creation, filename resolution, and save, with the `except`
ladder applied to anything raised inside the `try`.  Returns the result
(path or exception) paired with the effect trace. -/
def generate_qr_code (output_dir : String) (ext : Ext) (r : GenRequest) :
    Except PyExc String × List Effect :=
  match slice50 r.data with
  | .error e => (.error e, [])
  | .ok _ =>
    match validate_input_data r.data with
    | .error e => (.error (generateHandler e), [])
    | .ok _ =>
      match ERROR_CORRECTION_MAP.lookup (pyUpper r.error_correction) with
      | Option.none =>
          (.error (generateHandler (.inputValidationError
            (.invalidErrorCorrection r.error_correction (ERROR_CORRECTION_MAP.map Prod.fst))
            Option.none)), [])
      | Option.some _level =>
        match ext.encode with
        | .error e => (.error (generateHandler e), [Effect.encoderInvoked])
        | .ok _ =>
          match create_qr_image ext r.styled r.drawer_style r.color_mask
              r.foreground_color r.background_color with
          | .error e => (.error (generateHandler e), [Effect.encoderInvoked])
          | .ok _ =>
            let output_filename := r.filename.getD (generate_filename r.data.asString "png")
            let output_path := pyJoin output_dir output_filename
            match save_image ext output_path with
            | (.error e, tr) => (.error (generateHandler e), Effect.encoderInvoked :: tr)
            | (.ok _, tr) => (.ok output_path, Effect.encoderInvoked :: tr)

/-- The filesystem's responses to the operations of
`_validate_and_create_output_dir`: directory existence, `os.makedirs`,
opening the probe file for writing (failure means the file was not
created), writing/closing it, and `os.remove`. -/
structure DirFS where
  dirExists : Bool
  makedirsResult : Except PyExc Unit
  openResult : Except PyExc Unit
  writeResult : Except PyExc Unit
  removeResult : Except PyExc Unit

/-- `_validate_and_create_output_dir` (lines 117-139).  Returns the result
together with whether the probe file `.permission_test` still exists
afterwards.  The probe file exists once `open` succeeds and disappears
only when `os.remove` runs and succeeds; there is no `finally` block, so a
failure after creation skips the removal.  The `except` ladder: the
module's custom `PermissionError` (the builtin is shadowed), then
`OSError`, then `Exception`. -/
def validate_and_create_output_dir (output_dir : String) (fs : DirFS) :
    Except PyExc Unit × Bool :=
  let handler : PyExc → PyExc := fun e =>
    if e.isCustomPermission then
      .permissionError (.insufficientPermissionsForDir output_dir) (Option.some e)
    else if e.isOSError then .fileSystemError .filesystemErrorDir (Option.some e)
    else if e.isException then .qrGenerationError .unexpectedErrorDir (Option.some e)
    else e
  match (if fs.dirExists then Except.ok () else fs.makedirsResult) with
  | .error e => (.error (handler e), false)
  | .ok _ =>
    match fs.openResult with
    | .error e => (.error (handler e), false)
    | .ok _ =>
      match fs.writeResult with
      | .error e => (.error (handler e), true)
      | .ok _ =>
        match fs.removeResult with
        | .error e => (.error (handler e), true)
        | .ok _ => (.ok (), false)

/-! ## Theorems -/

/-- C1: the claim says a styled request with a bad `drawer_style` or
`color_mask` makes `generate` raise `InputValidationError` that propagates
as-is.  The code instead delivers `QRGenerationError`: the
`except Exception` in `_create_qr_image` wraps the `InputValidationError`
into `QRGenerationError("Image creation failed")`, and the `except
Exception` of `generate_qr_code` wraps that again; the options-listing
`InputValidationError` survives only in the cause chain.  Evaluated at
`data="test"`, `error_correction="L"` (valid), `styled=True` with
`drawer_style="triangle"` resp. `color_mask="neon"`. -/
theorem c1_style_validation_wrapped :
    generate_qr_code "qr_codes" extOK
        { data := PyVal.str "test", styled := true, drawer_style := "triangle" }
      = (Except.error (.qrGenerationError .qrGenerationFailed (Option.some
          (.qrGenerationError .imageCreationFailed (Option.some
            (.inputValidationError (.invalidDrawerStyle "triangle"
              ["square", "rounded", "gapped", "circle", "vertical", "horizontal"])
              Option.none))))), [Effect.encoderInvoked]) ∧
    generate_qr_code "qr_codes" extOK
        { data := PyVal.str "test", styled := true, color_mask := "neon" }
      = (Except.error (.qrGenerationError .qrGenerationFailed (Option.some
          (.qrGenerationError .imageCreationFailed (Option.some
            (.inputValidationError (.invalidColorMask "neon"
              ["radial", "square", "horizontal", "vertical", "solid"])
              Option.none))))), [Effect.encoderInvoked]) :=
  ⟨rfl, rfl⟩

/-- C2: the claim says an OS permission rejection surfaces as the custom
`PermissionError` (PermissionDenied).  The module's `class
PermissionError(FileSystemError)` shadows the builtin, so `except
PermissionError` never matches a builtin OS permission error; it falls
through to `except OSError` and becomes `FileSystemError` — for the probe
write at construction, and for `img.save` during `generate` (where
`generate_qr_code`'s own `except Exception` then wraps it once more into
`QRGenerationError`). -/
theorem c2_permission_error_shadowed :
    validate_and_create_output_dir "qr_codes"
        ⟨true, .ok (), .error (.osError .permission (.external "probe open denied")),
         .ok (), .ok ()⟩
      = (Except.error (.fileSystemError .filesystemErrorDir (Option.some
          (.osError .permission (.external "probe open denied")))), false) ∧
    (save_image ⟨.ok (), .ok (), .error (.osError .permission (.external "save denied"))⟩
        "qr_codes/qr_x.png").1
      = Except.error (.fileSystemError .filesystemErrorSavingImage (Option.some
          (.osError .permission (.external "save denied")))) ∧
    (generate_qr_code "qr_codes"
        ⟨.ok (), .ok (), .error (.osError .permission (.external "save denied"))⟩
        { data := PyVal.str "x" }).1
      = Except.error (.qrGenerationError .qrGenerationFailed (Option.some
          (.fileSystemError .filesystemErrorSavingImage (Option.some
            (.osError .permission (.external "save denied")))))) :=
  ⟨rfl, rfl, rfl⟩

/-- C3 counterexample: the claim says the probe file never exists after
output-directory validation, on every path.  If the probe file is opened
successfully but the write to it fails (e.g. the disk fills), there is no
`finally` block, `os.remove` is skipped, and the probe file persists. -/
theorem c3_probe_file_persists :
    (validate_and_create_output_dir "qr_codes"
        ⟨true, .ok (), .ok (),
         .error (.osError .otherOS (.external "no space left on device")), .ok ()⟩).2
      = true :=
  rfl

/-- C3 amended: the probe file is absent after validation exactly unless
the directory step and the probe open succeeded and then the probe write
or the probe removal failed; in particular it is always absent when
validation succeeds, but it persists on the write-failure and
remove-failure error paths. -/
theorem c3_probe_cleanup_characterization (output_dir : String) (fs : DirFS) :
    (validate_and_create_output_dir output_dir fs).2 = true ↔
      ((if fs.dirExists then Except.ok () else fs.makedirsResult) = Except.ok () ∧
       fs.openResult = Except.ok () ∧
       ¬(fs.writeResult = Except.ok () ∧ fs.removeResult = Except.ok ())) := by
  obtain ⟨d, mk, op, wr, rm⟩ := fs
  cases d <;> cases mk <;> cases op <;> cases wr <;> cases rm <;>
    simp [validate_and_create_output_dir]

/-- C4: `_generate_filename` is the stated pure algorithm (sanitize,
truncate to 50, wrap as `qr_<...>.png`); its output length is at most
`len("qr_") + 50 + len(".png") = 57`, and every output character is
alphanumeric, `-`, or `_`, except for exactly one `.`. -/
theorem c4_filename_synthesis (data : List Char) :
    generate_filename_chars data "png".toList
      = "qr_".toList ++ (sanitize data).take 50 ++ '.' :: "png".toList ∧
    (generate_filename_chars data "png".toList).length ≤ 57 ∧
    (generate_filename_chars data "png".toList).all
      (fun c => pyIsAlnum c || c == '-' || c == '_' || c == '.') = true ∧
    (generate_filename_chars data "png".toList).count '.' = 1 := by
  refine ⟨rfl, ?_, ?_, ?_⟩
  · show ("qr_".toList ++ (sanitize data).take 50 ++ '.' :: "png".toList).length ≤ 57
    rw [List.length_append, List.length_append, List.length_cons]
    have h : ((sanitize data).take 50).length ≤ 50 := by
      rw [List.length_take]
      exact Nat.min_le_left _ _
    have h2 : ("qr_".toList).length = 3 := rfl
    have h3 : ("png".toList).length = 3 := rfl
    omega
  · show ("qr_".toList ++ (sanitize data).take 50 ++ '.' :: "png".toList).all
      (fun c => pyIsAlnum c || c == '-' || c == '_' || c == '.') = true
    rw [List.all_append, List.all_append]
    have hmid : ((sanitize data).take 50).all
        (fun c => pyIsAlnum c || c == '-' || c == '_' || c == '.') = true := by
      rw [List.all_eq_true]
      intro c hc
      have hc2 : c ∈ sanitize data := List.take_subset _ _ hc
      simp only [sanitize, List.mem_map] at hc2
      obtain ⟨a, _, rfl⟩ := hc2
      by_cases h : (pyIsAlnum a || a == '-' || a == '_') = true
      · simp only [sanitizeChar, if_pos h]
        simp only [Bool.or_eq_true] at h ⊢
        tauto
      · simp only [sanitizeChar, if_neg h]
        decide
    rw [hmid]
    decide
  · show ("qr_".toList ++ (sanitize data).take 50 ++ '.' :: "png".toList).count '.' = 1
    rw [List.count_append, List.count_append]
    have h0 : ("qr_".toList).count '.' = 0 := rfl
    have hpng : ('.' :: "png".toList).count '.' = 1 := rfl
    have hmid : ((sanitize data).take 50).count '.' = 0 := by
      rw [List.count_eq_zero]
      intro hmem
      have hmem2 : '.' ∈ sanitize data := List.take_subset _ _ hmem
      simp only [sanitize, List.mem_map] at hmem2
      obtain ⟨a, _, ha⟩ := hmem2
      by_cases h : (pyIsAlnum a || a == '-' || a == '_') = true
      · simp only [sanitizeChar, if_pos h] at ha
        subst ha
        exact absurd h (by decide)
      · simp only [sanitizeChar, if_neg h] at ha
        exact absurd ha (by decide)
    omega

/-- C5 counterexample: the claim names the produced file
`qr_https_ _example.com.png`.  With defaults and all external collaborators
succeeding, `generate` on `data="https://example.com"` returns
`qr_codes/qr_https___example_com.png` (the sanitizer replaces `:`, `/` and
`.` with `_` and inserts no space), which is not the claimed path. -/
theorem c5_plain_scenario_filename_differs :
    (generate_qr_code "qr_codes" extOK { data := PyVal.str "https://example.com" }).1
      = Except.ok "qr_codes/qr_https___example_com.png" ∧
    "qr_codes/qr_https___example_com.png" ≠ pyJoin "qr_codes" "qr_https_ _example.com.png" ∧
    (generate_qr_code "qr_codes" extOK { data := PyVal.str "https://example.com" }).1
      ≠ Except.ok (pyJoin "qr_codes" "qr_https_ _example.com.png") := by
  refine ⟨rfl, by decide, ?_⟩
  intro h
  have h2 : "qr_codes/qr_https___example_com.png"
      = pyJoin "qr_codes" "qr_https_ _example.com.png" := Except.ok.inj h
  exact absurd h2 (by decide)

/-- C5 amended: with `data="https://example.com"`, no explicit filename,
all other options at their defaults, and the external encoder, renderer
and save succeeding, `generate` returns the output directory joined with
the synthesized filename `qr_https___example_com.png` (19 sanitized
characters, under the 50-character truncation limit), and the save effect
targets exactly that path. -/
theorem c5_plain_scenario_path :
    generate_qr_code "qr_codes" extOK { data := PyVal.str "https://example.com" }
      = (Except.ok (pyJoin "qr_codes" (generate_filename "https://example.com" "png")),
         [Effect.encoderInvoked, Effect.fileWrite "qr_codes/qr_https___example_com.png"]) ∧
    generate_filename "https://example.com" "png" = "qr_https___example_com.png" :=
  ⟨rfl, rfl⟩

/-- C6: validation is the first gate of `generate`: data that is empty or
whitespace-only after stripping yields `InputValidationError` with an
empty effect trace (no encoder invocation, no file write), and an
`error_correction` whose uppercasing is not a key of
`ERROR_CORRECTION_MAP` yields `InputValidationError` listing the valid
levels, likewise with an empty effect trace. -/
theorem c6_validation_first_gate (output_dir : String) (ext : Ext) (r : GenRequest)
    (s : String) :
    (r.data = PyVal.str s → pyStrip s = "" →
      generate_qr_code output_dir ext r
        = (Except.error (PyExc.inputValidationError Msg.inputDataCannotBeEmpty Option.none),
           [])) ∧
    (r.data = PyVal.str s → pyStrip s ≠ "" →
      ERROR_CORRECTION_MAP.lookup (pyUpper r.error_correction) = Option.none →
      generate_qr_code output_dir ext r
        = (Except.error (PyExc.inputValidationError
            (Msg.invalidErrorCorrection r.error_correction ["L", "M", "Q", "H"])
            Option.none), [])) := by
  constructor
  · intro hdata hempty
    simp [generate_qr_code, hdata, slice50, validate_input_data, hempty,
      generateHandler, PyExc.isInputValidationError]
  · intro hdata hne hec
    simp only [generate_qr_code, hdata, slice50, validate_input_data, hne, hec,
      if_false, ite_false, eq_self_iff_true]
    rfl

/-- C6 witness: concrete instances — whitespace-only data `"   "`, and
valid data with `error_correction="Z"`. -/
theorem c6_validation_first_gate_witness :
    generate_qr_code "qr_codes" extOK { data := PyVal.str "   " }
      = (Except.error (PyExc.inputValidationError Msg.inputDataCannotBeEmpty Option.none),
         []) ∧
    generate_qr_code "qr_codes" extOK { data := PyVal.str "x", error_correction := "Z" }
      = (Except.error (PyExc.inputValidationError
          (Msg.invalidErrorCorrection "Z" ["L", "M", "Q", "H"]) Option.none), []) :=
  ⟨(c6_validation_first_gate "qr_codes" extOK { data := PyVal.str "   " } "   ").1
      rfl (by decide),
   (c6_validation_first_gate "qr_codes" extOK
      { data := PyVal.str "x", error_correction := "Z" } "x").2
      rfl (by decide) rfl⟩

/-- C7: `_parse_color` is the case-insensitive lookup in the spec's fixed
five-entry table with default `(0,0,0)` for every unrecognized name; being
a total function it raises nothing. -/
theorem c7_parse_color_is_table_lookup (name : String) :
    parse_color name = ((specColorTable.lookup (pyLower name)).getD (0, 0, 0)) := by
  by_cases h1 : pyLower name = "black"
  · simp [parse_color, specColorTable, List.lookup, h1]
  · by_cases h2 : pyLower name = "white"
    · simp [parse_color, specColorTable, List.lookup, h1, h2]
    · by_cases h3 : pyLower name = "red"
      · simp [parse_color, specColorTable, List.lookup, h1, h2, h3]
      · by_cases h4 : pyLower name = "green"
        · simp [parse_color, specColorTable, List.lookup, h1, h2, h3, h4]
        · by_cases h5 : pyLower name = "blue"
          · simp [parse_color, specColorTable, List.lookup, h1, h2, h3, h4, h5]
          · have e1 : (pyLower name == "black") = false := by simp [h1]
            have e2 : (pyLower name == "white") = false := by simp [h2]
            have e3 : (pyLower name == "red") = false := by simp [h3]
            have e4 : (pyLower name == "green") = false := by simp [h4]
            have e5 : (pyLower name == "blue") = false := by simp [h5]
            simp [parse_color, specColorTable, List.lookup, h1, h2, h3, h4, h5,
              e1, e2, e3, e4, e5]

/-- C8: when the symbol encoder `qr.make` raises `DataOverflowError` (the
data exceeds the maximum capacity), `generate` fails with
`InputValidationError("Data too large for QR code")` carrying the
encoder's overflow error as its cause. -/
theorem c8_overflow_becomes_input_validation (output_dir : String) (ext : Ext)
    (r : GenRequest) (s : String) (lvl : Nat) (m : Msg)
    (hdata : r.data = PyVal.str s) (hne : pyStrip s ≠ "")
    (hec : ERROR_CORRECTION_MAP.lookup (pyUpper r.error_correction) = Option.some lvl)
    (henc : ext.encode = Except.error (PyExc.dataOverflowError m)) :
    generate_qr_code output_dir ext r
      = (Except.error (PyExc.inputValidationError Msg.dataTooLargeForQRCode
          (Option.some (PyExc.dataOverflowError m))), [Effect.encoderInvoked]) := by
  simp [generate_qr_code, hdata, slice50, validate_input_data, hne, hec, henc,
    generateHandler, PyExc.isInputValidationError, PyExc.isDataOverflow]

set_option maxRecDepth 100000 in
/-- C8 witness: 5000 repeated characters, `version=1`,
`error_correction="H"`, an encoder reporting overflow. -/
theorem c8_overflow_becomes_input_validation_witness :
    generate_qr_code "qr_codes"
        ⟨Except.error (PyExc.dataOverflowError (Msg.external "data overflow")), .ok (), .ok ()⟩
        { data := PyVal.str (String.mk (List.replicate 5000 'A')),
          version := Option.some 1, error_correction := "H" }
      = (Except.error (PyExc.inputValidationError Msg.dataTooLargeForQRCode
          (Option.some (PyExc.dataOverflowError (Msg.external "data overflow")))),
         [Effect.encoderInvoked]) :=
  c8_overflow_becomes_input_validation "qr_codes"
    ⟨Except.error (PyExc.dataOverflowError (Msg.external "data overflow")), .ok (), .ok ()⟩
    { data := PyVal.str (String.mk (List.replicate 5000 'A')),
      version := Option.some 1, error_correction := "H" }
    (String.mk (List.replicate 5000 'A')) 2 (Msg.external "data overflow")
    rfl (by decide) rfl rfl

/-- C9: the claim says every non-string `data` is rejected with
`InputValidationError("Input data must be a string")` by the validation
gate.  The logging call on line 210 evaluates `data[:50]` BEFORE the
`try` block, so a non-sliceable non-string (`None`, an `int`) escapes with
an uncaught builtin `TypeError` instead; only sliceable non-strings (a
`list`) reach the validation gate and get the claimed error. -/
theorem c9_nonstring_rejection :
    generate_qr_code "qr_codes" extOK { data := PyVal.none }
      = (Except.error (PyExc.typeError Msg.notSubscriptable), []) ∧
    generate_qr_code "qr_codes" extOK { data := PyVal.int 5 }
      = (Except.error (PyExc.typeError Msg.notSubscriptable), []) ∧
    generate_qr_code "qr_codes" extOK { data := PyVal.list [] }
      = (Except.error (PyExc.inputValidationError Msg.inputDataMustBeString Option.none),
         []) :=
  ⟨rfl, rfl, rfl⟩

/-- C10: every enumerated-string lookup of the pipeline is
case-insensitive: `error_correction` is uppercased before the
`ERROR_CORRECTION_MAP` lookup (`l`, `m`, `q`, `h` map to the same levels
as their uppercase forms), and `drawer_style`/`color_mask` are lowercased
before their table lookups (`ROUNDED`, `Solid`, `CIRCLE`, `VERTICAL`
accepted), so a fully mixed-case styled request succeeds end to end. -/
theorem c10_case_insensitive_lookups :
    ERROR_CORRECTION_MAP.lookup (pyUpper "l") = ERROR_CORRECTION_MAP.lookup "L" ∧
    ERROR_CORRECTION_MAP.lookup (pyUpper "m") = ERROR_CORRECTION_MAP.lookup "M" ∧
    ERROR_CORRECTION_MAP.lookup (pyUpper "q") = ERROR_CORRECTION_MAP.lookup "Q" ∧
    ERROR_CORRECTION_MAP.lookup (pyUpper "h") = ERROR_CORRECTION_MAP.lookup "H" ∧
    ERROR_CORRECTION_MAP.lookup (pyUpper "l") = Option.some 1 ∧
    MODULE_DRAWERS.lookup (pyLower "ROUNDED") = Option.some Drawer.rounded ∧
    pyLower "Solid" = "solid" ∧
    (generate_qr_code "qr_codes" extOK
        { data := PyVal.str "x", error_correction := "l", styled := true,
          drawer_style := "ROUNDED", color_mask := "Solid" }).1
      = Except.ok "qr_codes/qr_x.png" ∧
    (generate_qr_code "qr_codes" extOK
        { data := PyVal.str "x", error_correction := "h", styled := true,
          drawer_style := "CIRCLE", color_mask := "VERTICAL" }).1
      = Except.ok "qr_codes/qr_x.png" :=
  ⟨rfl, rfl, rfl, rfl, rfl, rfl, rfl, rfl, rfl⟩

end QRGen
